import Mathlib

/-!
Verification development for the WholeSlideImageSampler repository
(`sampler.py`, class `Sampler`).

The Python source is shallowly embedded below.  Conventions:

* Machine floats of the source (`level_downsamples`, magnifications,
  the `0.9` thresholds) are modelled as rationals `ℚ`; the integer
  quantities (`patchsize`, coordinates, levels) are `ℕ`.
* Python `int(x)` on a non-negative value truncates towards zero, which
  is `Int.floor`/`.toNat` for the non-negative arguments that occur here.
* Fallible Python code (raising `ValueError`/`IndexError`/`AssertionError`
  etc.) is embedded as `Except String`, the string naming the exception.
* `numpy` 2-d arrays are `List (List _)` in row-major order; Python
  slicing `a[i:i+k]` clamps at the ends, which `drop`/`take` also do.
* The Python attribute `annotation` is called `annot` here (and the
  OpenSlide handle type `AnnPyramid`); the semantics is unchanged.
* Pixel data of the slide itself is external to the repository (the spec
  excludes the decoder); an RGB region read is embedded as the record of
  the read performed (`RGBPatch`), which is all the source inspects.
-/

namespace WSISampler

/-- Geometry of an OpenSlide pyramid handle: `level_dimensions` are
`(width, height)` pairs, `level_downsamples` the per-level downsample
factors. -/
structure WSI where
  level_dimensions : List (ℕ × ℕ)
  level_downsamples : List ℚ
deriving Repr, DecidableEq

/-- An OpenSlide handle for the annotation pyramid (`self.annot` in our
naming).  `read_region pos level size` returns the single-channel label
raster (the source converts the region with `.convert('L')`). -/
structure AnnPyramid where
  level_dimensions : List (ℕ × ℕ)
  level_downsamples : List ℚ
  read_region : (ℕ × ℕ) → ℕ → (ℕ × ℕ) → List (List ℕ)

/-- What the cache-hit branch of `__init__` inspects about an array
loaded with `np.load`: its dtype and its shape `(rows, cols)`. -/
structure NpyArray where
  dtypeIsBool : Bool
  shape : ℕ × ℕ
deriving Repr, DecidableEq

/-- The record of a `wsi.read_region((w, h), level, (ps, ps))` call: the
pixel content is external to the repository, and the source never
inspects it. -/
structure RGBPatch where
  pos : ℕ × ℕ
  level : ℕ
  size : ℕ × ℕ
deriving Repr, DecidableEq

/-- The `info` dict built by `_class_c_patch_i` (`'class'` is `cls`). -/
structure PatchInfo where
  id : String
  w : ℕ
  h : ℕ
  cls : ℕ
  level : ℕ
  size : ℕ
  parent : String
deriving Repr, DecidableEq

/-- The `self.background` object read by `_class_c_patch_i`:
a level index, a boolean raster and a patch size. -/
structure Background where
  level : ℕ
  data : List (List Bool)
  patchsize : ℕ
deriving Repr, DecidableEq

/-- Sampler state after `__init__`, before `prepare_sampling`. -/
structure InitSampler where
  wsi : WSI
  wsi_file : String
  fileID : String
  magnifications : List ℚ
  tissue_mask : List (List Bool)
  tissue_mask_level : ℕ
  annot : Option AnnPyramid

/-- Sampler state after `prepare_sampling`.  `annot_level` is only
assigned by the source when an annotation is present, and only read in
that case; we store `0` otherwise. -/
structure SamplerState where
  wsi : WSI
  wsi_file : String
  fileID : String
  tissue_mask : List (List Bool)
  tissue_mask_level : ℕ
  annot : Option AnnPyramid
  annot_level : ℕ
  level : ℕ
  leveldim : ℕ × ℕ
  ps : ℕ
  ps_tm : ℕ
  class_list : List ℕ
  class_seeds : List (List (ℕ × ℕ))
  rejected : ℕ

/-- Python `list.index` returning the first matching index, as an
`Option` (the `None` case embeds the `ValueError`). -/
def firstIdx (p : α → Bool) : List α → Option ℕ
  | [] => none
  | x :: xs => if p x then some 0 else (firstIdx p xs).map (· + 1)

/-- `Sampler.level_converter` (sampler.py:223):
`int(x * level_downsamples[lvl_in] / level_downsamples[lvl_out])`.
Out-of-range levels would raise in Python; all call sites below are
in-range, and theorems carry in-range hypotheses, so we use `getD`.
`int()` truncation is `Int.floor ∘ .toNat` on these non-negative
quotients. -/
def level_converter (ds : List ℚ) (x : ℕ) (lvl_in lvl_out : ℕ) : ℕ :=
  (Int.floor ((x : ℚ) * ds.getD lvl_in 1 / ds.getD lvl_out 1)).toNat

/-- Python 2-d slicing `g[i:i+k, j:j+k]` (clamping at the ends). -/
def subgrid (g : List (List Bool)) (i j k : ℕ) : List (List Bool) :=
  ((g.drop i).take k).map (fun row => (row.drop j).take k)

/-- `np.sum(bool_grid.astype(int))`: the number of `true` cells. -/
def gridCountTrue (g : List (List Bool)) : ℕ :=
  (g.map (fun row => row.countP id)).sum

/-- `np.sum((grid != c).astype(int))`: the number of cells differing
from `c`. -/
def gridCountNe (g : List (List ℕ)) (c : ℕ) : ℕ :=
  (g.map (fun row => row.countP (fun x => x != c))).sum

/-- `np.nonzero(mask)` for a boolean raster: row-major positions of the
`true` cells, as `(row, col)`. -/
def truePositions (g : List (List Bool)) : List (ℕ × ℕ) :=
  (g.enum.map (fun r =>
    r.2.enum.filterMap (fun c => if c.2 then some (r.1, c.1) else none))).flatten

/-- `np.nonzero(raster == v)`: row-major positions of the cells equal to
`v`. -/
def labelPositions (g : List (List ℕ)) (v : ℕ) : List (ℕ × ℕ) :=
  (g.enum.map (fun r =>
    r.2.enum.filterMap (fun c => if c.2 = v then some (r.1, c.1) else none))).flatten

/-- `sorted(list(np.unique(a)))`: the distinct values, in ascending
order. -/
def npUnique (l : List ℕ) : List ℕ :=
  (l.dedup).insertionSort (· ≤ ·)

/-- Modelled from the spec: `ut.val_in_list` lives in `modules/utils`,
which is not under `src/`.  Spec §4.1: the level "whose magnification is
within `tolerance` absolute units of `target_magnification`"; we return
the first such index, `none` when there is none. -/
def val_in_list (v : ℚ) (l : List ℚ) (tol : ℚ) : Option ℕ :=
  firstIdx (fun x => decide (|v - x| ≤ tol)) l

/-- `Sampler.get_level` (sampler.py:208): returns the index found by
`val_in_list`, or `None` (after printing a warning, without raising). -/
def get_level (magnifications : List ℚ) (magnification : ℚ) (tol : ℚ) : Option ℕ :=
  val_in_list magnification magnifications tol

/-- Cache-hit branch of `__init__` (sampler.py:60-65): assert the loaded
mask is boolean, then `level_dimensions.index(mask.shape[::-1])`.
Returns the recovered tissue-mask level. -/
def loadCachedMask (dims : List (ℕ × ℕ)) (mask : NpyArray) : Except String ℕ :=
  if mask.dtypeIsBool = false then Except.error "AssertionError"
  else
    match firstIdx (fun d => d = (mask.shape.2, mask.shape.1)) dims with
    | none => Except.error "ValueError"
    | some idx => Except.ok idx

/-- Modelled from the spec: directory lookup `ut.string_in_directory`
(in `modules/utils`, not under `src/`) is "lookup by
substring/identifier match within a configured directory" (§6); it is
passed in as the function `lookup`.  This is the annotation-resolution
part of `__init__` (sampler.py:67-77): `none` when no directory is
configured, `none` ("Skipping") when the lookup fails, otherwise the
opened handle. -/
def resolveAnnot (openHandle : String → AnnPyramid)
    (lookup : String → String → Option String)
    (fileID : String) (annot_dir : Option String) : Option AnnPyramid :=
  match annot_dir with
  | none => none
  | some d =>
    match lookup fileID d with
    | none => none
    | some s => some (openHandle s)

/-- Modelled from the spec: `_class_c_patch_i` reads
`self.background.level`, `self.background.data` and
`self.background.patchsize`, but `background` is never assigned anywhere
in the source.  Spec §9 resolves this: the check is the tissue-coverage
check over the already-computed TissueMask, with the (otherwise unused)
`ps_tm` precomputation as its patch size.  So `background` is the tissue
mask at the tissue-mask level with patch size `ps_tm`. -/
def background (s : SamplerState) : Background :=
  ⟨s.tissue_mask_level, s.tissue_mask, s.ps_tm⟩

/-- Modelled from the spec: the low-resolution level choice for the
annotation raster in `_get_classes_and_seeds` (sampler.py:146) calls
`ut.get_level(self.annot, desired_downsampling=down, threshold=20)`,
where `ut` is not under `src/` and `down` is an undefined name; spec §9
fixes the target as a configurable parameter, so the chosen level is
passed in as `annLevel`. -/
def annLowResLevel (annLevel : ℕ) : ℕ := annLevel

/-- Scale one mask-level `(row, col)` pixel to level 0:
`(int(row * factor), int(col * factor))`. -/
def scaleCoord (factor : ℚ) (rc : ℕ × ℕ) : ℕ × ℕ :=
  ((Int.floor ((rc.1 : ℚ) * factor)).toNat, (Int.floor ((rc.2 : ℚ) * factor)).toNat)

/-- The full annotation raster read at the chosen low-resolution level
(sampler.py:147-149): `read_region((0, 0), level, level_dimensions[level])`
followed by `.convert('L')`. -/
def annRaster (a : AnnPyramid) (annLevel : ℕ) : List (List ℕ) :=
  a.read_region (0, 0) (annLowResLevel annLevel)
    (a.level_dimensions.getD (annLowResLevel annLevel) (0, 0))

/-- `Sampler._get_classes_and_seeds` (sampler.py:126-161).  `shuffleFn`
stands for `random.shuffle` (theorems assume it permutes its input);
`annLevel` is the spec-modelled low-resolution level choice.  Failure
cases: `classes[0]` on an empty raster raises `IndexError`, and
`assert classes[0] == 0` raises `AssertionError`. -/
def getClassesAndSeeds (shuffleFn : List (ℕ × ℕ) → List (ℕ × ℕ))
    (tissue_mask : List (List Bool)) (ds : List ℚ) (tm_level : ℕ)
    (annot : Option AnnPyramid) (annLevel : ℕ) :
    Except String (List ℕ × List (List (ℕ × ℕ))) :=
  let factor := ds.getD tm_level 1
  let coords := shuffleFn ((truePositions tissue_mask).map (scaleCoord factor))
  match annot with
  | none => Except.ok ([0], [coords])
  | some a =>
    match npUnique (annRaster a annLevel).flatten with
    | [] => Except.error "IndexError"
    | c0 :: rest =>
      if c0 = 0 then
        let f := a.level_downsamples.getD (annLowResLevel annLevel) 1
        let pools := rest.map
          (fun c => shuffleFn ((labelPositions (annRaster a annLevel) c).map (scaleCoord f)))
        Except.ok (0 :: rest, coords :: pools)
      else Except.error "AssertionError"

/-- `Sampler.prepare_sampling` (sampler.py:79-98).  `get_level` uses its
default `tol=0.01`; a `None` level makes the subsequent
`level_dimensions[None]` raise `TypeError`.  When an annotation is
present, `assert self.leveldim in self.annot.level_dimensions` and then
`.index(...)`; ends with `self.rejected = 0`. -/
def prepare_sampling (init : InitSampler)
    (shuffleFn : List (ℕ × ℕ) → List (ℕ × ℕ)) (annLevel : ℕ)
    (magnification : ℚ) (patchsize : ℕ) : Except String SamplerState :=
  match get_level init.magnifications magnification (1/100) with
  | none => Except.error "TypeError"
  | some level =>
    match init.wsi.level_dimensions.get? level with
    | none => Except.error "IndexError"
    | some leveldim =>
      let ps_tm := level_converter init.wsi.level_downsamples patchsize level init.tissue_mask_level
      match (match init.annot with
             | none => Except.ok 0
             | some a =>
               match firstIdx (fun d => d = leveldim) a.level_dimensions with
               | none => Except.error "AssertionError"
               | some k => Except.ok k : Except String ℕ) with
      | Except.error e => Except.error e
      | Except.ok annot_level =>
        match getClassesAndSeeds shuffleFn init.tissue_mask init.wsi.level_downsamples
            init.tissue_mask_level init.annot annLevel with
        | Except.error e => Except.error e
        | Except.ok (cl, cs) =>
          Except.ok
            { wsi := init.wsi, wsi_file := init.wsi_file, fileID := init.fileID,
              tissue_mask := init.tissue_mask, tissue_mask_level := init.tissue_mask_level,
              annot := init.annot, annot_level := annot_level,
              level := level, leveldim := leveldim, ps := patchsize, ps_tm := ps_tm,
              class_list := cl, class_seeds := cs, rejected := 0 }

/-- `self.rejected += 1`. -/
def bump (s : SamplerState) : SamplerState :=
  { s with rejected := s.rejected + 1 }

/-- Lines 175-179 of `_class_c_patch_i`: convert the level-0 seed
coordinate `(hh, ww)` to the `background` level, slice the
`background.patchsize`-sized sub-region out of `background.data`, and
form `np.sum(background_patch) / (background.patchsize ** 2)`. -/
def tissueCheckFrac (s : SamplerState) (hh ww : ℕ) : ℚ :=
  (gridCountTrue (subgrid (background s).data
      (level_converter s.wsi.level_downsamples hh 0 (background s).level)
      (level_converter s.wsi.level_downsamples ww 0 (background s).level)
      (background s).patchsize) : ℚ) / ((background s).patchsize : ℚ) ^ 2

/-- `Sampler._class_c_patch_i` (sampler.py:163-204).  Return value
`(patch, info)` with `(None, None)` on rejection is embedded as
`Option (RGBPatch × PatchInfo)`; the state carries the mutated
`rejected` counter. -/
def classCPatchI (s : SamplerState) (c i : ℕ) :
    Except String (Option (RGBPatch × PatchInfo) × SamplerState) :=
  match firstIdx (fun x => x = c) s.class_list with
  | none => Except.error "ValueError"
  | some idx =>
    match s.class_seeds.get? idx with
    | none => Except.error "IndexError"
    | some seeds =>
      match seeds.get? i with
      | none => Except.error "IndexError"
      | some hw =>
        let h := hw.1
        let w := hw.2
        let patch : RGBPatch := ⟨(w, h), s.level, (s.ps, s.ps)⟩
        if ¬ (tissueCheckFrac s h w > 9/10) then
          Except.ok (none, bump s)
        else
          let info : PatchInfo := ⟨s.fileID, w, h, c, s.level, s.ps, s.wsi_file⟩
          match s.annot with
          | none => Except.ok (some (patch, info), s)
          | some a =>
            let ap := a.read_region (w, h) s.annot_level (s.ps, s.ps)
            if (gridCountNe ap c : ℚ) / ((s.ps : ℚ)) ^ 2 > 9/10 then
              Except.ok (none, bump s)
            else
              Except.ok (some (patch, info), s)

/-- Inner loop of `Sampler.sample_patches` (sampler.py:111-116) for one
class: `for j, seed in enumerate(seeds): ...; if j >= (max_per_class - 1):
break`.  The break test is over Python ints, hence the `ℤ` comparison
(`max_per_class = 0` still attempts the first seed). -/
def sampleSeeds (c maxpc : ℕ) :
    SamplerState → List (ℕ × ℕ) → ℕ → Except String (List PatchInfo × SamplerState)
  | s, [], _ => Except.ok ([], s)
  | s, _ :: rest, j =>
    match classCPatchI s c j with
    | Except.error e => Except.error e
    | Except.ok (res, s') =>
      let here := match res with
        | some pi => [pi.2]
        | none => []
      if (j : ℤ) ≥ (maxpc : ℤ) - 1 then Except.ok (here, s')
      else
        match sampleSeeds c maxpc s' rest (j + 1) with
        | Except.error e => Except.error e
        | Except.ok (more, s'') => Except.ok (here ++ more, s'')

/-- Outer loop of `Sampler.sample_patches` (sampler.py:109-116) over
`enumerate(self.class_list)` with `seeds = self.class_seeds[i]`. -/
def samplePatchesGo (maxpc : ℕ) :
    SamplerState → List (ℕ × List (ℕ × ℕ)) → Except String (List PatchInfo × SamplerState)
  | s, [] => Except.ok ([], s)
  | s, (c, seeds) :: rest =>
    match sampleSeeds c maxpc s seeds 0 with
    | Except.error e => Except.error e
    | Except.ok (infos, s') =>
      match samplePatchesGo maxpc s' rest with
      | Except.error e => Except.error e
      | Except.ok (more, s'') => Except.ok (infos ++ more, s'')

/-- `Sampler.sample_patches` (sampler.py:100-122): the accumulated
`frame` rows, in order, together with the final state (the persisting of
the frame is external I/O). -/
def samplePatches (s : SamplerState) (maxpc : ℕ) :
    Except String (List PatchInfo × SamplerState) :=
  samplePatchesGo maxpc s (s.class_list.zip s.class_seeds)

/-- A sequence of `_class_c_patch_i` calls `(c, i)`, threading the
state; records each call's `info` outcome. -/
def runCalls : SamplerState → List (ℕ × ℕ) → Except String (List (Option PatchInfo) × SamplerState)
  | s, [] => Except.ok ([], s)
  | s, (c, i) :: rest =>
    match classCPatchI s c i with
    | Except.error e => Except.error e
    | Except.ok (res, s') =>
      match runCalls s' rest with
      | Except.error e => Except.error e
      | Except.ok (more, s'') => Except.ok ((res.map (fun p => p.2)) :: more, s'')

/-- Spec §4.4 step 3, in the spec's words: "convert the coordinate and
patch size from the sampling level into the tissue-mask level's
coordinate frame; read the corresponding sub-region of the TissueMask;
compute the fraction of `true` pixels within that sub-region."  The seed
coordinate `(h, w)` is a level-0 coordinate, so its conversion is from
level 0; the patch size converts from the sampling level.  Out-of-bounds
pixels of the `ps_tm × ps_tm` frame count as non-tissue. -/
def tissueFractionSpec (tm : List (List Bool)) (ds : List ℚ)
    (tm_level samp_level : ℕ) (h w ps : ℕ) : ℚ :=
  let r0 := level_converter ds h 0 tm_level
  let c0 := level_converter ds w 0 tm_level
  let pstm := level_converter ds ps samp_level tm_level
  (gridCountTrue (subgrid tm r0 c0 pstm) : ℚ) / ((pstm : ℚ)) ^ 2

end WSISampler

namespace WSISampler

/-! ## Concrete instances (used by witnesses and counterexamples) -/

/-- A one-level pyramid: dimensions 100 x 100, downsample 1. -/
def cexWSI : WSI := ⟨[(100, 100)], [1]⟩

/-- A prepared sampler on `cexWSI`: 1 x 1 all-tissue mask, no
annotation, patch size 1, one seed for class 0. -/
def baseState : SamplerState :=
  { wsi := cexWSI, wsi_file := "f.tif", fileID := "f",
    tissue_mask := [[true]], tissue_mask_level := 0, annot := none, annot_level := 0,
    level := 0, leveldim := (100, 100), ps := 1, ps_tm := 1,
    class_list := [0], class_seeds := [[(0, 0)]], rejected := 0 }

/-- `__init__`-stage view of `baseState` (level-0 magnification 40). -/
def baseInit : InitSampler :=
  { wsi := cexWSI, wsi_file := "f.tif", fileID := "f", magnifications := [40],
    tissue_mask := [[true]], tissue_mask_level := 0, annot := none }

/-- All-background mask and a two-seed pool for class 0. -/
def stC1cex : SamplerState :=
  { baseState with tissue_mask := [[false]], class_seeds := [[(0, 0), (0, 0)]] }

/-- 10 x 10 tissue mask with exactly 90 foreground pixels (a 90%
patch), `ps_tm = 10`. -/
def st90 : SamplerState :=
  { baseState with
    tissue_mask := List.replicate 9 (List.replicate 10 true) ++ [List.replicate 10 false],
    ps_tm := 10 }

/-- 10 x 10 tissue mask with 91 foreground pixels (a 91% patch). -/
def st91 : SamplerState :=
  { st90 with
    tissue_mask := List.replicate 9 (List.replicate 10 true) ++ [true :: List.replicate 9 false] }

/-- 100 x 100 tissue mask with 8999 foreground pixels (an 89.99%
patch), `ps_tm = 100`. -/
def st8999 : SamplerState :=
  { baseState with
    tissue_mask := List.replicate 89 (List.replicate 100 true)
      ++ [List.replicate 99 true ++ [false]] ++ List.replicate 10 (List.replicate 100 false),
    ps_tm := 100 }

/-- Pool for class 0 is empty. -/
def stEmptyPool : SamplerState := { baseState with class_seeds := [[]] }

/-- A trivial annotation pyramid handle. -/
def annW : AnnPyramid := ⟨[(2, 2)], [1], fun _ _ _ => [[0]]⟩

/-- A 2 x 2 annotation raster with classes 0, 1, 2 at downsample 2. -/
def annC4 : AnnPyramid := ⟨[(2, 2)], [2], fun _ _ _ => [[0, 1], [2, 1]]⟩

/-! ## Helper lemmas -/

lemma bump_rejected (s : SamplerState) : (bump s).rejected = s.rejected + 1 := rfl

/-- Each successful `_class_c_patch_i` call either rejects (returns no
patch, counter bumped) or accepts (patch returned, state unchanged). -/
lemma classCPatchI_delta (s : SamplerState) (c i : ℕ) (res : Option (RGBPatch × PatchInfo))
    (s' : SamplerState) (h : classCPatchI s c i = Except.ok (res, s')) :
    (res = none ∧ s' = bump s) ∨ (res.isSome ∧ s' = s) := by
  unfold classCPatchI at h
  cases hfi : firstIdx (fun x => decide (x = c)) s.class_list <;> simp only [hfi] at h
  case none => exact absurd h (by simp)
  case some idx =>
  cases hcs : s.class_seeds.get? idx <;> simp only [hcs] at h
  case none => exact absurd h (by simp)
  case some seeds =>
  cases hsd : seeds.get? i <;> simp only [hsd] at h
  case none => exact absurd h (by simp)
  case some hw =>
  split at h
  · simp only [Except.ok.injEq, Prod.mk.injEq] at h
    exact Or.inl ⟨h.1.symm, h.2.symm⟩
  · cases hann : s.annot <;> simp only [hann] at h
    case none =>
      simp only [Except.ok.injEq, Prod.mk.injEq] at h
      exact Or.inr ⟨by simp [← h.1], h.2.symm⟩
    case some a =>
      split at h
      · simp only [Except.ok.injEq, Prod.mk.injEq] at h
        exact Or.inl ⟨h.1.symm, h.2.symm⟩
      · simp only [Except.ok.injEq, Prod.mk.injEq] at h
        exact Or.inr ⟨by simp [← h.1], h.2.symm⟩

/-- Bookkeeping of the per-class loop: from position `j` the loop makes
exactly `min seeds.length (max (maxpc - j) 1)` attempts, each either
accepted (contributing to `infos`) or rejected (contributing to the
counter). -/
lemma sampleSeeds_count (c maxpc : ℕ) (seeds : List (ℕ × ℕ)) :
    ∀ (j : ℕ) (s : SamplerState) (infos : List PatchInfo) (s' : SamplerState),
      sampleSeeds c maxpc s seeds j = Except.ok (infos, s') →
      ∃ rej, s'.rejected = s.rejected + rej ∧
        infos.length + rej = min seeds.length (max (maxpc - j) 1) := by
  induction seeds with
  | nil =>
    intro j s infos s' h
    unfold sampleSeeds at h
    simp only [Except.ok.injEq, Prod.mk.injEq] at h
    exact ⟨0, by simp [← h.2], by simp [← h.1]⟩
  | cons seed rest ih =>
    intro j s infos s' h
    unfold sampleSeeds at h
    cases hc : classCPatchI s c j <;> simp only [hc] at h
    case error e => exact absurd h (by simp)
    case ok p =>
    obtain ⟨res, s1⟩ := p
    split at h
    case isTrue hbreak =>
      simp only [Except.ok.injEq, Prod.mk.injEq] at h
      obtain ⟨hinfos, hs'⟩ := h
      rcases classCPatchI_delta s c j res s1 hc with ⟨hres, hs1⟩ | ⟨hres, hs1⟩
      · subst hres
        dsimp only at hinfos
        refine ⟨1, ?_, ?_⟩
        · rw [← hs', hs1, bump_rejected]
        · have hb : maxpc ≤ j + 1 := by omega
          simp only [← hinfos, List.length_nil, List.length_cons]
          omega
      · obtain ⟨pr, hpr⟩ := Option.isSome_iff_exists.mp hres
        subst hpr
        dsimp only at hinfos
        refine ⟨0, ?_, ?_⟩
        · rw [← hs', hs1]; omega
        · have hb : maxpc ≤ j + 1 := by omega
          simp only [← hinfos, List.length_cons, List.length_nil]
          omega
    case isFalse hbreak =>
      cases hrec : sampleSeeds c maxpc s1 rest (j + 1) <;> simp only [hrec] at h
      case error e => exact absurd h (by simp)
      case ok q =>
      obtain ⟨more, s2⟩ := q
      simp only [Except.ok.injEq, Prod.mk.injEq] at h
      obtain ⟨hinfos, hs'⟩ := h
      obtain ⟨rej, hrej, hcount⟩ := ih (j + 1) s1 more s2 hrec
      have hb : j + 2 ≤ maxpc := by omega
      rcases classCPatchI_delta s c j res s1 hc with ⟨hres, hs1⟩ | ⟨hres, hs1⟩
      · subst hres
        dsimp only at hinfos
        refine ⟨rej + 1, ?_, ?_⟩
        · rw [← hs', hrej, hs1, bump_rejected]; omega
        · simp only [← hinfos, List.length_append, List.length_nil, List.length_cons]
          omega
      · obtain ⟨pr, hpr⟩ := Option.isSome_iff_exists.mp hres
        subst hpr
        dsimp only at hinfos
        refine ⟨rej, ?_, ?_⟩
        · rw [← hs', hrej, hs1]
        · simp only [← hinfos, List.length_append, List.length_cons, List.length_nil]
          omega

end WSISampler

namespace WSISampler

lemma floor_roundtrip (v : ℕ) (d1 d2 : ℚ) (h1 : 0 < d1) (h2 : 0 < d2) :
    (Int.floor ((((Int.floor ((v : ℚ) * d1 / d2)).toNat : ℕ) : ℚ) * d2 / d1)).toNat ≤ v ∧
    (v : ℚ) - ((Int.floor ((((Int.floor ((v : ℚ) * d1 / d2)).toNat : ℕ) : ℚ) * d2 / d1)).toNat : ℚ)
      < d2 / d1 + 1 := by
  have hx0 : (0 : ℚ) ≤ (v : ℚ) * d1 / d2 := by positivity
  set x : ℚ := (v : ℚ) * d1 / d2 with hxdef
  set m : ℕ := (Int.floor x).toNat with hmdef
  have hmz : (m : ℤ) = Int.floor x := Int.toNat_of_nonneg (Int.floor_nonneg.mpr hx0)
  have hmq : (m : ℚ) = ((Int.floor x : ℤ) : ℚ) := by exact_mod_cast hmz
  have hmle : (m : ℚ) ≤ x := by rw [hmq]; exact Int.floor_le x
  have hmgt : x < (m : ℚ) + 1 := by rw [hmq]; exact Int.lt_floor_add_one x
  set y : ℚ := (m : ℚ) * d2 / d1 with hydef
  have hy0 : (0 : ℚ) ≤ y := by positivity
  set r : ℕ := (Int.floor y).toNat with hrdef
  have hrz : (r : ℤ) = Int.floor y := Int.toNat_of_nonneg (Int.floor_nonneg.mpr hy0)
  have hrq : (r : ℚ) = ((Int.floor y : ℤ) : ℚ) := by exact_mod_cast hrz
  have hyv : y ≤ (v : ℚ) := by
    rw [hydef, div_le_iff₀ h1]
    have := (le_div_iff₀ h2).mp hmle
    linarith
  constructor
  · have hfl : Int.floor y ≤ (v : ℤ) := by
      have := Int.floor_le_floor hyv
      rwa [Int.floor_natCast] at this
    omega
  · have h5 : (v : ℚ) * d1 < ((m : ℚ) + 1) * d2 := (div_lt_iff₀ h2).mp hmgt
    have hcancel : d2 / d1 * d1 = d2 := div_mul_cancel₀ _ (ne_of_gt h1)
    have h6 : (v : ℚ) - d2 / d1 < y := by
      rw [hydef, lt_div_iff₀ h1, sub_mul, hcancel]
      linarith
    have hrgt : y - 1 < (r : ℚ) := by rw [hrq]; exact Int.sub_one_lt_floor y
    linarith

/-- C3 (amended): for positive downsamples, the round trip
`convert(convert(v, A, B), B, A)` never exceeds `v` and falls short of it
by less than `downsample[B]/downsample[A] + 1`; in particular it is
within 1 of `v` whenever `downsample[B] ≤ downsample[A]`, but not in
general (see the counterexample). -/
theorem C3_roundtrip_amended (ds : List ℚ) (A B v : ℕ) (d1 d2 : ℚ)
    (hA : ds.getD A 1 = d1) (hB : ds.getD B 1 = d2)
    (h1 : 0 < d1) (h2 : 0 < d2) :
    level_converter ds (level_converter ds v A B) B A ≤ v ∧
    (v : ℚ) - (level_converter ds (level_converter ds v A B) B A : ℚ) < d2 / d1 + 1 ∧
    (d2 ≤ d1 → v - level_converter ds (level_converter ds v A B) B A ≤ 1) := by
  have hmain := floor_roundtrip v d1 d2 h1 h2
  simp only [level_converter, hA, hB]
  refine ⟨hmain.1, hmain.2, fun hd => ?_⟩
  have hdiv : d2 / d1 ≤ 1 := (div_le_one h1).mpr hd
  have hlt : (v : ℚ) - ((Int.floor ((((Int.floor ((v : ℚ) * d1 / d2)).toNat : ℕ) : ℚ) * d2 / d1)).toNat : ℚ) < 2 := by
    linarith [hmain.2]
  have hle := hmain.1
  have hcast : (((v : ℕ) - (Int.floor ((((Int.floor ((v : ℚ) * d1 / d2)).toNat : ℕ) : ℚ) * d2 / d1)).toNat : ℕ) : ℚ)
      = (v : ℚ) - ((Int.floor ((((Int.floor ((v : ℚ) * d1 / d2)).toNat : ℕ) : ℚ) * d2 / d1)).toNat : ℚ) :=
    Nat.cast_sub hle
  have : ((v : ℕ) - (Int.floor ((((Int.floor ((v : ℚ) * d1 / d2)).toNat : ℕ) : ℚ) * d2 / d1)).toNat : ℕ) < 2 := by
    exact_mod_cast hcast ▸ hlt
  omega

/-- C3 witness: downsamples `[1, 2]`, `v = 3`: the round trip gives 2,
within the bound. -/
theorem C3_roundtrip_amended_witness :
    level_converter [1, 2] (level_converter [1, 2] 3 0 1) 1 0 ≤ 3 ∧
    (3 : ℚ) - (level_converter [1, 2] (level_converter [1, 2] 3 0 1) 1 0 : ℚ) < 2 / 1 + 1 ∧
    ((2 : ℚ) ≤ 1 → 3 - level_converter [1, 2] (level_converter [1, 2] 3 0 1) 1 0 ≤ 1) :=
  C3_roundtrip_amended [1, 2] 0 1 3 1 2 (by norm_num) (by norm_num) (by norm_num) (by norm_num)

/-- C3 counterexample: with downsamples `[1, 4]` and `v = 3`,
`convert(convert(3, 0, 1), 1, 0) = 0`, which differs from 3 by more
than 1, refuting the claimed plus-or-minus-1 round trip. -/
theorem C3_roundtrip_counterexample :
    level_converter [1, 4] (level_converter [1, 4] 3 0 1) 1 0 = 0 ∧
    ¬ (((3 : ℤ) - (level_converter [1, 4] (level_converter [1, 4] 3 0 1) 1 0 : ℤ)).natAbs ≤ 1) := by
  norm_num [level_converter]

end WSISampler

namespace WSISampler

lemma firstIdx_spec (p : α → Bool) :
    ∀ (l : List α) (i : ℕ), firstIdx p l = some i → ∃ a, l.get? i = some a ∧ p a = true := by
  intro l
  induction l with
  | nil => intro i h; simp [firstIdx] at h
  | cons x xs ih =>
    intro i h
    unfold firstIdx at h
    by_cases hp : p x
    · simp only [hp, if_true, Option.some.injEq] at h
      subst h
      exact ⟨x, rfl, hp⟩
    · simp only [hp, if_false, Bool.false_eq_true] at h
      obtain ⟨i', hi', rfl⟩ := Option.map_eq_some'.mp h
      obtain ⟨a, ha, hpa⟩ := ih i' hi'
      exact ⟨a, by simpa using ha, hpa⟩

lemma firstIdx_eq_none_iff (p : α → Bool) :
    ∀ (l : List α), firstIdx p l = none ↔ ∀ a ∈ l, p a = false := by
  intro l
  induction l with
  | nil => simp [firstIdx]
  | cons x xs ih =>
    unfold firstIdx
    by_cases hp : p x
    · simp [hp]
    · simp only [hp, if_false, Option.map_eq_none', Bool.false_eq_true]
      rw [ih]
      constructor
      · intro hall a ha
        rcases List.mem_cons.mp ha with rfl | hmem
        · simpa using hp
        · exact hall a hmem
      · intro hall a ha
        exact hall a (List.mem_cons_of_mem _ ha)

/-- C7: `get_level` either returns `None` (an explicit not-found signal,
without raising) or a level index whose computed magnification is within
`tol` absolute units of the requested magnification; it never returns a
level outside the tolerance. -/
theorem C7_get_level_tolerance (mags : List ℚ) (target tol : ℚ) :
    get_level mags target tol = none ∨
    ∃ idx m, get_level mags target tol = some idx ∧ mags.get? idx = some m ∧ |m - target| ≤ tol := by
  cases hgl : get_level mags target tol with
  | none => exact Or.inl rfl
  | some idx =>
    obtain ⟨m, hm, hpm⟩ := firstIdx_spec _ mags idx hgl
    refine Or.inr ⟨idx, m, rfl, hm, ?_⟩
    have := of_decide_eq_true hpm
    rwa [abs_sub_comm] at this

/-- C8: the cache-hit branch accepts a loaded mask iff its dtype is
boolean and its transposed shape occurs among the pyramid's level
dimensions, and the recovered tissue-mask level is the first matching
level; otherwise initialization fails fatally
(`AssertionError`/`ValueError`). -/
theorem C8_load_cached_mask (dims : List (ℕ × ℕ)) (mask : NpyArray) :
    ((∃ idx, loadCachedMask dims mask = Except.ok idx) ↔
      (mask.dtypeIsBool = true ∧ (mask.shape.2, mask.shape.1) ∈ dims)) ∧
    (∀ idx, loadCachedMask dims mask = Except.ok idx →
      dims.get? idx = some (mask.shape.2, mask.shape.1)) := by
  constructor
  · constructor
    · rintro ⟨idx, hok⟩
      unfold loadCachedMask at hok
      split at hok
      · exact absurd hok (by simp)
      · rename_i hbool
        cases hfi : firstIdx (fun d => decide (d = (mask.shape.2, mask.shape.1))) dims <;>
          simp only [hfi] at hok
        · exact absurd hok (by simp)
        · obtain ⟨a, ha, hpa⟩ := firstIdx_spec _ dims _ hfi
          have ha' := of_decide_eq_true hpa
          subst ha'
          exact ⟨by simpa using hbool, List.get?_mem ha⟩
    · rintro ⟨hbool, hmem⟩
      unfold loadCachedMask
      rw [if_neg (by simp [hbool])]
      cases hfi : firstIdx (fun d => decide (d = (mask.shape.2, mask.shape.1))) dims with
      | none =>
        exfalso
        have := (firstIdx_eq_none_iff _ dims).mp hfi _ hmem
        simp at this
      | some idx => exact ⟨idx, rfl⟩
  · intro idx hok
    unfold loadCachedMask at hok
    split at hok
    · exact absurd hok (by simp)
    · cases hfi : firstIdx (fun d => decide (d = (mask.shape.2, mask.shape.1))) dims <;>
        simp only [hfi] at hok
      · exact absurd hok (by simp)
      · rename_i idx'
        have hidx : idx' = idx := by simpa using hok
        subst hidx
        obtain ⟨a, ha, hpa⟩ := firstIdx_spec _ dims _ hfi
        have ha' := of_decide_eq_true hpa
        subst ha'
        exact ha

end WSISampler

namespace WSISampler

/-- C6 (amended): requesting pool index `i` with `i ≥ pool length` from
`_class_c_patch_i` raises an `IndexError` (plain list indexing at
sampler.py:171) rather than signalling exhaustion as a non-error
outcome; the driver `sample_patches` never issues such a request because
it iterates over the pool itself. -/
theorem C6_pool_exhaustion_raises (s : SamplerState) (c i idx : ℕ) (seeds : List (ℕ × ℕ))
    (hc : firstIdx (fun x => decide (x = c)) s.class_list = some idx)
    (hs : s.class_seeds.get? idx = some seeds)
    (hlen : seeds.length ≤ i) :
    classCPatchI s c i = Except.error "IndexError" := by
  unfold classCPatchI
  rw [hc]
  simp only [hs]
  rw [List.get?_eq_none.mpr hlen]

/-- C10: counter bookkeeping over runCalls -/
lemma runCalls_count (calls : List (ℕ × ℕ)) :
    ∀ (s : SamplerState) (res : List (Option PatchInfo)) (s' : SamplerState),
      runCalls s calls = Except.ok (res, s') →
      s'.rejected = s.rejected + res.countP (fun o => o.isNone) := by
  induction calls with
  | nil =>
    intro s res s' h
    unfold runCalls at h
    simp only [Except.ok.injEq, Prod.mk.injEq] at h
    simp [← h.1, ← h.2]
  | cons ci rest ih =>
    intro s res s' h
    obtain ⟨c, i⟩ := ci
    unfold runCalls at h
    cases hc : classCPatchI s c i <;> simp only [hc] at h
    case error e => exact absurd h (by simp)
    case ok p =>
    obtain ⟨r0, s1⟩ := p
    cases hrec : runCalls s1 rest <;> simp only [hrec] at h
    case error e => exact absurd h (by simp)
    case ok q =>
    obtain ⟨more, s2⟩ := q
    simp only [Except.ok.injEq, Prod.mk.injEq] at h
    obtain ⟨hres, hs'⟩ := h
    have hm := ih s1 more s2 hrec
    rcases classCPatchI_delta s c i r0 s1 hc with ⟨hr0, hs1⟩ | ⟨hr0, hs1⟩
    · subst hr0
      simp only [← hres, List.countP_cons, Option.map_none', Option.isNone_none]
      rw [← hs', hm, hs1, bump_rejected]
      simp
      omega
    · obtain ⟨pr, hpr⟩ := Option.isSome_iff_exists.mp hr0
      subst hpr
      simp only [← hres, List.countP_cons, Option.map_some', Option.isNone_some]
      rw [← hs', hm, hs1]
      simp

end WSISampler

namespace WSISampler

lemma prepare_sampling_rejected (init : InitSampler)
    (sh : List (ℕ × ℕ) → List (ℕ × ℕ)) (al : ℕ) (mag : ℚ) (ps : ℕ)
    (st : SamplerState) (h : prepare_sampling init sh al mag ps = Except.ok st) :
    st.rejected = 0 := by
  unfold prepare_sampling at h
  cases hg : get_level init.magnifications mag (1/100) <;> simp only [hg] at h
  case none => exact absurd h (by simp)
  case some lvl =>
  cases hld : init.wsi.level_dimensions.get? lvl <;> simp only [hld] at h
  case none => exact absurd h (by simp)
  case some ld =>
  split at h
  case h_1 e he => exact absurd h (by simp)
  case h_2 al' hal =>
  split at h <;>
    first
      | (simp only [Except.ok.injEq] at h; rw [← h])
      | exact absurd h (by simp)

/-- C10: `prepare_sampling` resets the rejection counter to 0; each
successful `_class_c_patch_i` call either rejects (no patch, counter
incremented by exactly 1) or accepts (patch returned, counter
unchanged); hence over any sequence of calls the final counter equals
the starting counter plus the number of rejections. -/
theorem C10_rejection_counter :
    (∀ (init : InitSampler) (sh : List (ℕ × ℕ) → List (ℕ × ℕ)) (al : ℕ) (mag : ℚ) (ps : ℕ)
      (st : SamplerState),
      prepare_sampling init sh al mag ps = Except.ok st → st.rejected = 0) ∧
    (∀ (s : SamplerState) (c i : ℕ) (res : Option (RGBPatch × PatchInfo)) (s' : SamplerState),
      classCPatchI s c i = Except.ok (res, s') →
      (res = none → s' = bump s) ∧ (res.isSome → s' = s)) ∧
    (∀ (s : SamplerState) (calls : List (ℕ × ℕ)) (res : List (Option PatchInfo))
      (s' : SamplerState),
      runCalls s calls = Except.ok (res, s') →
      s'.rejected = s.rejected + res.countP (fun o => o.isNone)) := by
  refine ⟨prepare_sampling_rejected, ?_, fun s calls res s' h => runCalls_count calls s res s' h⟩
  intro s c i res s' h
  rcases classCPatchI_delta s c i res s' h with ⟨hres, hs'⟩ | ⟨hres, hs'⟩
  · exact ⟨fun _ => hs', fun hsome => absurd hsome (by simp [hres])⟩
  · exact ⟨fun hnone => absurd hres (by simp [hnone]), fun _ => hs'⟩

end WSISampler

namespace WSISampler

lemma tissueCheckFrac_eq_spec (s : SamplerState) (hh ww : ℕ)
    (hps : s.ps_tm = level_converter s.wsi.level_downsamples s.ps s.level s.tissue_mask_level) :
    tissueCheckFrac s hh ww =
      tissueFractionSpec s.tissue_mask s.wsi.level_downsamples s.tissue_mask_level s.level hh ww s.ps := by
  unfold tissueCheckFrac tissueFractionSpec background
  rw [← hps]

/-- C2: `_class_c_patch_i` computes the fraction of `true` pixels of the
already-computed TissueMask in the sub-region obtained by converting the
level-0 seed coordinate and the sampling-level patch size into the
tissue-mask frame (`tissueFractionSpec`, the spec's wording), and the
tissue-coverage step rejects (no patch, counter bumped) exactly when
that fraction is ≤ 0.9: fraction ≤ 0.9 implies rejection for any state,
and rejection is equivalent to fraction ≤ 0.9 when no annotation is
configured (with one, the later annotation-consistency step can also
reject). -/
theorem C2_tissue_coverage (s : SamplerState) (c i idx : ℕ) (seeds : List (ℕ × ℕ))
    (hh ww : ℕ)
    (hfi : firstIdx (fun x => decide (x = c)) s.class_list = some idx)
    (hcs : s.class_seeds.get? idx = some seeds)
    (hseed : seeds.get? i = some (hh, ww))
    (hps : s.ps_tm = level_converter s.wsi.level_downsamples s.ps s.level s.tissue_mask_level) :
    (tissueFractionSpec s.tissue_mask s.wsi.level_downsamples s.tissue_mask_level s.level hh ww s.ps
        ≤ 9/10 →
      classCPatchI s c i = Except.ok (none, bump s)) ∧
    (s.annot = none →
      (classCPatchI s c i = Except.ok (none, bump s) ↔
        tissueFractionSpec s.tissue_mask s.wsi.level_downsamples s.tissue_mask_level s.level hh ww s.ps
          ≤ 9/10)) := by
  have hfrac := tissueCheckFrac_eq_spec s hh ww hps
  have hred : classCPatchI s c i =
      if ¬ (tissueCheckFrac s hh ww > 9/10) then Except.ok (none, bump s)
      else
        match s.annot with
        | none => Except.ok (some (⟨(ww, hh), s.level, (s.ps, s.ps)⟩,
            ⟨s.fileID, ww, hh, c, s.level, s.ps, s.wsi_file⟩), s)
        | some a =>
          if (gridCountNe (a.read_region (ww, hh) s.annot_level (s.ps, s.ps)) c : ℚ)
              / ((s.ps : ℚ)) ^ 2 > 9/10 then
            Except.ok (none, bump s)
          else
            Except.ok (some (⟨(ww, hh), s.level, (s.ps, s.ps)⟩,
              ⟨s.fileID, ww, hh, c, s.level, s.ps, s.wsi_file⟩), s) := by
    unfold classCPatchI
    rw [hfi]
    simp only [hcs, hseed]
  constructor
  · intro hle
    rw [hred, if_pos (not_lt.mpr (by rw [hfrac]; exact hle))]
  · intro hann
    rw [hred, hann]
    constructor
    · intro hrej
      by_contra hgt
      rw [if_neg (by simp only [not_not, gt_iff_lt]; rw [hfrac]; exact lt_of_not_le hgt)] at hrej
      simp at hrej
    · intro hle
      rw [if_pos (not_lt.mpr (by rw [hfrac]; exact hle))]

end WSISampler

namespace WSISampler

/-- Reduction of `_class_c_patch_i` once the three lookups succeed. -/
lemma classCPatchI_reduce (s : SamplerState) (c i idx : ℕ) (seeds : List (ℕ × ℕ)) (hh ww : ℕ)
    (hfi : firstIdx (fun x => decide (x = c)) s.class_list = some idx)
    (hcs : s.class_seeds.get? idx = some seeds)
    (hseed : seeds.get? i = some (hh, ww)) :
    classCPatchI s c i =
      if ¬ (tissueCheckFrac s hh ww > 9/10) then Except.ok (none, bump s)
      else
        match s.annot with
        | none => Except.ok (some (⟨(ww, hh), s.level, (s.ps, s.ps)⟩,
            ⟨s.fileID, ww, hh, c, s.level, s.ps, s.wsi_file⟩), s)
        | some a =>
          if (gridCountNe (a.read_region (ww, hh) s.annot_level (s.ps, s.ps)) c : ℚ)
              / ((s.ps : ℚ)) ^ 2 > 9/10 then
            Except.ok (none, bump s)
          else
            Except.ok (some (⟨(ww, hh), s.level, (s.ps, s.ps)⟩,
              ⟨s.fileID, ww, hh, c, s.level, s.ps, s.wsi_file⟩), s) := by
  unfold classCPatchI
  rw [hfi]
  simp only [hcs, hseed]

lemma subgrid_full (g : List (List Bool)) (k : ℕ) (hg : g.length ≤ k)
    (hrow : ∀ row ∈ g, row.length ≤ k) : subgrid g 0 0 k = g := by
  unfold subgrid
  rw [List.drop_zero, List.take_of_length_le hg]
  conv_rhs => rw [← List.map_id g]
  apply List.map_congr_left
  intro row hr
  simp [List.take_of_length_le (hrow row hr)]

lemma gridCountTrue_append (g1 g2 : List (List Bool)) :
    gridCountTrue (g1 ++ g2) = gridCountTrue g1 + gridCountTrue g2 := by
  simp [gridCountTrue]

lemma gridCountTrue_replicate (n m : ℕ) (b : Bool) :
    gridCountTrue (List.replicate n (List.replicate m b)) = if b then n * m else 0 := by
  cases b <;> simp [gridCountTrue, List.countP_eq_length_filter, List.filter_replicate,
    List.map_replicate, List.sum_replicate, smul_eq_mul, mul_comm]

lemma st90_frac : tissueCheckFrac st90 0 0 = 9/10 := by
  have h0 : level_converter [1] 0 0 0 = 0 := by norm_num [level_converter]
  have hcount : gridCountTrue (List.replicate 9 (List.replicate 10 true)
      ++ [List.replicate 10 false]) = 90 := by
    rw [gridCountTrue_append, gridCountTrue_replicate]
    simp [gridCountTrue, List.countP_eq_length_filter, List.filter_replicate]
  simp only [tissueCheckFrac, background, st90, baseState, cexWSI]
  rw [h0, subgrid_full _ _ (by simp) ?_, hcount]
  · norm_num
  · intro row hr
    simp only [List.mem_append, List.mem_replicate, List.mem_singleton] at hr
    rcases hr with ⟨-, rfl⟩ | rfl <;> simp

lemma st91_frac : tissueCheckFrac st91 0 0 = 91/100 := by
  have h0 : level_converter [1] 0 0 0 = 0 := by norm_num [level_converter]
  have hcount : gridCountTrue (List.replicate 9 (List.replicate 10 true)
      ++ [true :: List.replicate 9 false]) = 91 := by
    rw [gridCountTrue_append, gridCountTrue_replicate]
    simp [gridCountTrue, List.countP_eq_length_filter, List.filter_replicate, List.filter_cons]
  simp only [tissueCheckFrac, background, st91, st90, baseState, cexWSI]
  rw [h0, subgrid_full _ _ (by simp) ?_, hcount]
  · norm_num
  · intro row hr
    simp only [List.mem_append, List.mem_replicate, List.mem_singleton] at hr
    rcases hr with ⟨-, rfl⟩ | rfl <;> simp

lemma st8999_frac : tissueCheckFrac st8999 0 0 = 8999/10000 := by
  have h0 : level_converter [1] 0 0 0 = 0 := by norm_num [level_converter]
  have hcount : gridCountTrue (List.replicate 89 (List.replicate 100 true)
      ++ [List.replicate 99 true ++ [false]] ++ List.replicate 10 (List.replicate 100 false))
      = 8999 := by
    rw [gridCountTrue_append, gridCountTrue_append, gridCountTrue_replicate,
      gridCountTrue_replicate]
    simp [gridCountTrue, List.countP_eq_length_filter, List.filter_replicate, List.filter_append]
  simp only [tissueCheckFrac, background, st8999, baseState, cexWSI]
  rw [h0, subgrid_full _ _ (by simp) ?_, hcount]
  · norm_num
  · intro row hr
    simp only [List.mem_append, List.mem_replicate, List.mem_singleton] at hr
    rcases hr with (⟨-, rfl⟩ | rfl) | ⟨-, rfl⟩ <;> simp

end WSISampler

namespace WSISampler

/-- C5 counterexample: a patch whose tissue-mask sub-region is exactly
90% foreground is rejected (no patch, counter bumped), because the code
requires `fraction > 0.9`; the claim asserts such a patch is accepted. -/
theorem C5_boundary_counterexample :
    tissueCheckFrac st90 0 0 = 9/10 ∧
    classCPatchI st90 0 0 = Except.ok (none, bump st90) := by
  refine ⟨st90_frac, ?_⟩
  rw [classCPatchI_reduce st90 0 0 0 [(0, 0)] 0 0 rfl rfl rfl,
    if_pos (by rw [st90_frac]; norm_num)]

/-- C5 (amended): at the decision boundary the check accepts only
fractions strictly above 0.9: a patch at 89.99% tissue is rejected and a
patch at 91% is accepted (a patch at exactly 90% is rejected, see the
counterexample). -/
theorem C5_boundary_amended :
    (tissueCheckFrac st8999 0 0 = 8999/10000 ∧
      classCPatchI st8999 0 0 = Except.ok (none, bump st8999)) ∧
    (tissueCheckFrac st91 0 0 = 91/100 ∧
      classCPatchI st91 0 0 = Except.ok
        (some (⟨(0, 0), 0, (1, 1)⟩, ⟨"f", 0, 0, 0, 0, 1, "f.tif"⟩), st91)) := by
  constructor
  · refine ⟨st8999_frac, ?_⟩
    rw [classCPatchI_reduce st8999 0 0 0 [(0, 0)] 0 0 rfl rfl rfl,
      if_pos (by rw [st8999_frac]; norm_num)]
  · refine ⟨st91_frac, ?_⟩
    rw [classCPatchI_reduce st91 0 0 0 [(0, 0)] 0 0 rfl rfl rfl,
      if_neg (by rw [st91_frac]; norm_num)]
    simp [st91, st90, baseState, cexWSI]

/-- C6 counterexample: with an empty class-0 pool, requesting patch 0
yields the `IndexError` embedding, not a non-error exhaustion signal. -/
theorem C6_pool_exhaustion_counterexample :
    classCPatchI stEmptyPool 0 0 = Except.error "IndexError" := by
  unfold classCPatchI
  rfl

/-- C6 witness: `baseState` has a one-seed pool, and requesting index 1
raises. -/
theorem C6_pool_exhaustion_raises_witness :
    classCPatchI baseState 0 1 = Except.error "IndexError" :=
  C6_pool_exhaustion_raises baseState 0 1 0 [(0, 0)] rfl rfl (by norm_num)

/-- C1 (amended): for `max_per_class = N ≥ 1` the per-class loop of
`sample_patches` accepts at most `N` patches; but it can accept strictly
fewer than `N` with the pool not exhausted, because the
`j >= max_per_class - 1` break bounds the number of attempts, not
acceptances: fewer than `N` acceptances implies the pool was shorter
than `N` or some attempted seed was rejected (the counter grew). -/
theorem C1_cap_amended (s : SamplerState) (c maxpc : ℕ) (seeds : List (ℕ × ℕ))
    (infos : List PatchInfo) (s' : SamplerState)
    (hN : 1 ≤ maxpc)
    (h : sampleSeeds c maxpc s seeds 0 = Except.ok (infos, s')) :
    infos.length ≤ maxpc ∧
    (infos.length < maxpc → seeds.length < maxpc ∨ s.rejected < s'.rejected) := by
  obtain ⟨rej, hrej, hcount⟩ := sampleSeeds_count c maxpc seeds 0 s infos s' h
  omega

end WSISampler

namespace WSISampler

lemma baseState_frac : tissueCheckFrac baseState 0 0 = 1 := by
  simp only [tissueCheckFrac, background, baseState, cexWSI]
  norm_num [level_converter, subgrid, gridCountTrue]

lemma stC1cex_frac : tissueCheckFrac stC1cex 0 0 = 0 := by
  simp only [tissueCheckFrac, background, stC1cex, baseState, cexWSI]
  norm_num [level_converter, subgrid, gridCountTrue]

lemma stC1cex_call : classCPatchI stC1cex 0 0 = Except.ok (none, bump stC1cex) := by
  rw [classCPatchI_reduce stC1cex 0 0 0 [(0, 0), (0, 0)] 0 0 rfl rfl rfl,
    if_pos (by rw [stC1cex_frac]; norm_num)]

lemma baseState_call : classCPatchI baseState 0 0 =
    Except.ok (some (⟨(0, 0), 0, (1, 1)⟩, ⟨"f", 0, 0, 0, 0, 1, "f.tif"⟩), baseState) := by
  rw [classCPatchI_reduce baseState 0 0 0 [(0, 0)] 0 0 rfl rfl rfl,
    if_neg (by rw [baseState_frac]; norm_num)]
  simp [baseState, cexWSI]

/-- C1 counterexample: a class-0 pool of two seeds whose first patch is
rejected, with `max_per_class = 1`: the run accepts 0 < 1 patches after
a single attempt (rejection counter 0 to 1), yet the pool still holds an
unattempted second seed, so the acceptance count is below the cap
without pool exhaustion. -/
theorem C1_cap_counterexample :
    samplePatches stC1cex 1 = Except.ok ([], bump stC1cex) ∧
    (stC1cex.class_seeds.getD 0 []).length = 2 ∧
    (bump stC1cex).rejected = 1 := by
  refine ⟨?_, rfl, rfl⟩
  show samplePatchesGo 1 stC1cex (stC1cex.class_list.zip stC1cex.class_seeds) = _
  have hzip : stC1cex.class_list.zip stC1cex.class_seeds = [(0, [(0, 0), (0, 0)])] := rfl
  rw [hzip]
  unfold samplePatchesGo sampleSeeds
  rw [stC1cex_call]
  norm_num
  unfold samplePatchesGo
  rfl

/-- C1 witness: an accepting one-seed run with cap 1. -/
theorem C1_cap_amended_witness :
    ([(⟨"f", 0, 0, 0, 0, 1, "f.tif"⟩ : PatchInfo)].length ≤ 1) ∧
    ([(⟨"f", 0, 0, 0, 0, 1, "f.tif"⟩ : PatchInfo)].length < 1 →
      ([((0 : ℕ), (0 : ℕ))].length < 1 ∨ baseState.rejected < baseState.rejected)) := by
  have hsamp : sampleSeeds 0 1 baseState [(0, 0)] 0 =
      Except.ok ([⟨"f", 0, 0, 0, 0, 1, "f.tif"⟩], baseState) := by
    unfold sampleSeeds
    rw [baseState_call]
    norm_num
  exact C1_cap_amended baseState 0 1 [(0, 0)] [⟨"f", 0, 0, 0, 0, 1, "f.tif"⟩] baseState
    (by norm_num) hsamp

/-- C9: when an annotation directory is configured but the lookup finds
no file for the image, the resolved annotation equals the no-directory
case (`none`); with no annotation, seed generation yields class list
exactly `[0]`, and a patch passing the tissue check is accepted outright
with no annotation-consistency check applied. -/
theorem C9_missing_annot (oh : String → AnnPyramid) (lookup : String → String → Option String)
    (fid d : String)
    (sh : List (ℕ × ℕ) → List (ℕ × ℕ)) (tm : List (List Bool)) (ds : List ℚ) (tml al : ℕ)
    (s : SamplerState) (c i idx : ℕ) (seeds : List (ℕ × ℕ)) (hh ww : ℕ)
    (hlk : lookup fid d = none)
    (hann : s.annot = none)
    (hfi : firstIdx (fun x => decide (x = c)) s.class_list = some idx)
    (hcs : s.class_seeds.get? idx = some seeds)
    (hseed : seeds.get? i = some (hh, ww))
    (hfracgt : tissueCheckFrac s hh ww > 9/10) :
    resolveAnnot oh lookup fid (some d) = resolveAnnot oh lookup fid none ∧
    (∃ pool, getClassesAndSeeds sh tm ds tml none al = Except.ok ([0], [pool])) ∧
    classCPatchI s c i = Except.ok (some (⟨(ww, hh), s.level, (s.ps, s.ps)⟩,
      ⟨s.fileID, ww, hh, c, s.level, s.ps, s.wsi_file⟩), s) := by
  refine ⟨?_, ⟨_, rfl⟩, ?_⟩
  · simp only [resolveAnnot]
    rw [hlk]
  · rw [classCPatchI_reduce s c i idx seeds hh ww hfi hcs hseed,
      if_neg (by simpa using hfracgt), hann]

/-- C9 witness: a failing lookup, trivial pools, and the accepting
`baseState` call. -/
theorem C9_missing_annot_witness :
    resolveAnnot (fun _ => annW) (fun _ _ => none) "f" (some "dir")
      = resolveAnnot (fun _ => annW) (fun _ _ => none) "f" none ∧
    (∃ pool, getClassesAndSeeds (fun l => l) [[true]] [1] 0 none 0 = Except.ok ([0], [pool])) ∧
    classCPatchI baseState 0 0 = Except.ok
      (some (⟨(0, 0), 0, (1, 1)⟩, ⟨"f", 0, 0, 0, 0, 1, "f.tif"⟩), baseState) :=
  C9_missing_annot (fun _ => annW) (fun _ _ => none) "f" "dir" (fun l => l) [[true]] [1] 0 0
    baseState 0 0 0 [(0, 0)] 0 0 rfl rfl rfl rfl rfl (by rw [baseState_frac]; norm_num)

end WSISampler

namespace WSISampler

/-- C2 witness: on `baseState` (all-tissue 1 x 1 mask) the fraction is 1,
so the equivalence holds with both sides false. -/
theorem C2_tissue_coverage_witness :
    (tissueFractionSpec baseState.tissue_mask baseState.wsi.level_downsamples
        baseState.tissue_mask_level baseState.level 0 0 baseState.ps ≤ 9/10 →
      classCPatchI baseState 0 0 = Except.ok (none, bump baseState)) ∧
    (baseState.annot = none →
      (classCPatchI baseState 0 0 = Except.ok (none, bump baseState) ↔
        tissueFractionSpec baseState.tissue_mask baseState.wsi.level_downsamples
          baseState.tissue_mask_level baseState.level 0 0 baseState.ps ≤ 9/10)) :=
  C2_tissue_coverage baseState 0 0 0 [(0, 0)] 0 0 rfl rfl rfl
    (by norm_num [baseState, cexWSI, level_converter])

lemma prepare_eval : prepare_sampling baseInit (fun l => l) 0 40 1 = Except.ok baseState := by
  have hg : get_level baseInit.magnifications 40 (1/100) = some 0 := by
    norm_num [baseInit, get_level, val_in_list, firstIdx]
  unfold prepare_sampling
  rw [hg]
  norm_num [baseInit, baseState, cexWSI, getClassesAndSeeds, truePositions, scaleCoord,
    level_converter, List.filterMap, Prod.ext_iff]

lemma runCalls_eval : runCalls stC1cex [(0, 0)] = Except.ok ([none], bump stC1cex) := by
  unfold runCalls
  rw [stC1cex_call]
  rfl

/-- C10 witness: `prepare_sampling` on `baseInit` yields counter 0; an
accepting call leaves the state unchanged; a one-rejection run adds 1. -/
theorem C10_rejection_counter_witness :
    baseState.rejected = 0 ∧
    ((some ((⟨(0, 0), 0, (1, 1)⟩ : RGBPatch), (⟨"f", 0, 0, 0, 0, 1, "f.tif"⟩ : PatchInfo)) = none →
        baseState = bump baseState) ∧
      ((some ((⟨(0, 0), 0, (1, 1)⟩ : RGBPatch),
          (⟨"f", 0, 0, 0, 0, 1, "f.tif"⟩ : PatchInfo))).isSome → baseState = baseState)) ∧
    (bump stC1cex).rejected =
      stC1cex.rejected + ([none] : List (Option PatchInfo)).countP (fun o => o.isNone) :=
  ⟨C10_rejection_counter.1 baseInit (fun l => l) 0 40 1 baseState prepare_eval,
   C10_rejection_counter.2.1 baseState 0 0 _ baseState baseState_call,
   C10_rejection_counter.2.2 stC1cex [(0, 0)] [none] (bump stC1cex) runCalls_eval⟩

/-- C8 witness: a boolean 3 x 2 mask against level dimensions
`[(2, 3)]` recovers level 0. -/
theorem C8_load_cached_mask_witness :
    (([((2 : ℕ), (3 : ℕ))] : List (ℕ × ℕ)).get? 0 = some (2, 3)) :=
  (C8_load_cached_mask [(2, 3)] ⟨true, (3, 2)⟩).2 0 rfl

end WSISampler

namespace WSISampler

lemma npUnique_sorted (l : List ℕ) : (npUnique l).Sorted (· < ·) := by
  have hs : (npUnique l).Sorted (· ≤ ·) := List.sorted_insertionSort _ _
  have hn : (npUnique l).Nodup :=
    ((List.perm_insertionSort (· ≤ ·) l.dedup).nodup_iff).mpr (List.nodup_dedup l)
  exact hs.lt_of_le hn

lemma npUnique_mem (l : List ℕ) (v : ℕ) : v ∈ npUnique l ↔ v ∈ l := by
  unfold npUnique
  rw [(List.perm_insertionSort (· ≤ ·) l.dedup).mem_iff, List.mem_dedup]

lemma sorted_head_zero {l : List ℕ} (hs : l.Sorted (· ≤ ·)) (h0 : 0 ∈ l) :
    ∃ t, l = 0 :: t := by
  cases l with
  | nil => simp at h0
  | cons x xs =>
    rcases List.mem_cons.mp h0 with rfl | hmem
    · exact ⟨xs, rfl⟩
    · have hx : x ≤ 0 := (List.sorted_cons.mp hs).1 0 hmem
      exact ⟨xs, by simp [Nat.le_zero.mp hx]⟩

/-- C4: with an annotation configured and label 0 present in the
low-resolution raster, `_get_classes_and_seeds` succeeds; the class list
is `[0]` followed by the distinct non-zero raster values in strictly
ascending order, and each non-zero class's pool is a permutation (the
shuffle) of one scaled-to-level-0 coordinate per raster pixel equal to
that class, scaling by the chosen level's downsample factor with
truncation. -/
theorem C4_classes_and_seeds (sh : List (ℕ × ℕ) → List (ℕ × ℕ))
    (tm : List (List Bool)) (ds : List ℚ) (tml : ℕ) (a : AnnPyramid) (al : ℕ)
    (hsh : ∀ l, (sh l).Perm l)
    (h0 : 0 ∈ (annRaster a al).flatten) :
    ∃ cl cs, getClassesAndSeeds sh tm ds tml (some a) al = Except.ok (cl, cs) ∧
      cl.head? = some 0 ∧
      cl.Sorted (· < ·) ∧
      (∀ v, v ∈ cl ↔ (v = 0 ∨ (v ≠ 0 ∧ v ∈ (annRaster a al).flatten))) ∧
      cs.length = cl.length ∧
      (∀ k, 1 ≤ k → ∀ c pool, cl.get? k = some c → cs.get? k = some pool →
        pool.Perm ((labelPositions (annRaster a al) c).map
          (scaleCoord (a.level_downsamples.getD (annLowResLevel al) 1)))) := by
  have hsort_le : (npUnique (annRaster a al).flatten).Sorted (· ≤ ·) :=
    List.sorted_insertionSort _ _
  have h0u : 0 ∈ npUnique (annRaster a al).flatten := (npUnique_mem _ _).mpr h0
  obtain ⟨t, ht⟩ := sorted_head_zero hsort_le h0u
  have hsort_lt : (0 :: t).Sorted (· < ·) := ht ▸ npUnique_sorted _
  have hmem : ∀ v, v ∈ (0 :: t) ↔ v ∈ (annRaster a al).flatten := by
    intro v
    rw [← ht, npUnique_mem]
  unfold getClassesAndSeeds
  dsimp only
  rw [ht]
  refine ⟨0 :: t, _, by dsimp only; rw [if_pos rfl], rfl, hsort_lt, ?_, by simp only [List.length_cons, List.length_map], ?_⟩
  · intro v
    rw [hmem v]
    constructor
    · intro hv
      by_cases hv0 : v = 0
      · exact Or.inl hv0
      · exact Or.inr ⟨hv0, hv⟩
    · rintro (rfl | ⟨-, hv⟩)
      · exact h0
      · exact hv
  · intro k hk c pool hc hp
    obtain ⟨k', rfl⟩ := Nat.exists_eq_add_of_le' hk
    simp only [List.get?_cons_succ] at hc hp
    rw [List.get?_map, hc] at hp
    simp only [Option.map_some', Option.some.injEq] at hp
    rw [← hp]
    exact hsh _

end WSISampler

namespace WSISampler

/-- C4 witness: a concrete 2 x 2 raster `[[0, 1], [2, 1]]` at
downsample 2, with the identity shuffle. -/
theorem C4_classes_and_seeds_witness :
    ∃ cl cs, getClassesAndSeeds (fun l => l) [[true]] [1] 0 (some annC4) 0 = Except.ok (cl, cs) ∧
      cl.head? = some 0 ∧
      cl.Sorted (· < ·) ∧
      (∀ v, v ∈ cl ↔ (v = 0 ∨ (v ≠ 0 ∧ v ∈ (annRaster annC4 0).flatten))) ∧
      cs.length = cl.length ∧
      (∀ k, 1 ≤ k → ∀ c pool, cl.get? k = some c → cs.get? k = some pool →
        pool.Perm ((labelPositions (annRaster annC4 0) c).map
          (scaleCoord (annC4.level_downsamples.getD (annLowResLevel 0) 1)))) :=
  C4_classes_and_seeds (fun l => l) [[true]] [1] 0 annC4 0
    (fun l => List.Perm.refl l) (by decide)

end WSISampler
